import Mathlib

/-!
Verification of the Agentic Test Case Generator frontend workflow.

The definitions below are a shallow embedding of frontend/src/App.jsx:
React state is a record, each async handler becomes a pure state
transformer parameterised by the outcome of its fetch call, and the
issued HTTP request (if any) is returned alongside the new state.
JavaScript truthiness on strings, object-lookup defaults and the
try/catch/finally control flow of each handler are modelled explicitly.
The backend Validation Gate is not part of the given sources and is
modelled from the specification where a claim needs it.
-/

namespace AgenticTCG

/-! ## Data model (app/models.py shapes as consumed by the frontend) -/

/-- A requirement item: id and text. -/
structure Requirement where
  id : String
  text : String
deriving DecidableEq, Repr

/-- One step of a test case. -/
structure TestStep where
  step : Nat
  action : String
  expected : String
  test_data : Option String
deriving DecidableEq, Repr

/-- A test case as rendered by the frontend table. Fields the backend may
omit are Options; the view layer supplies defaults via JS truthiness. -/
structure TestCase where
  id : String
  title : String
  description : Option String
  priority : Option String
  type : Option String
  status : Option String
  preconditions : Option String
  steps : List TestStep
  expected_result : Option String
  test_data : Option String
  estimated_time : Option String
  automation_status : Option String
  component : Option String
  tags : List String
deriving DecidableEq, Repr

/-! ## JavaScript semantics helpers -/

/-- JS string truthiness: only the empty string is falsy. -/
def strTruthy (s : String) : Bool := s ≠ ""

/-- JS expression v or-else d for an optional string field:
undefined and the empty string both fall through to the default. -/
def jsOrStr (v : Option String) (d : String) : String :=
  match v with
  | none => d
  | some s => if s = "" then d else s

/-- Characters treated as whitespace by the JS String.trim call. -/
def isJsSpace (c : Char) : Bool :=
  c = ' ' || c = '\t' || c = '\n' || c = '\r'

/-- JS String.trim on a character list: strip leading and trailing whitespace. -/
def jsTrimList (l : List Char) : List Char :=
  ((l.dropWhile isJsSpace).reverse.dropWhile isJsSpace).reverse

/-- JS String.trim. -/
def jsTrim (s : String) : String := ⟨jsTrimList s.data⟩

/-! ## Client state (the useState hooks of App.jsx) -/

/-- The React state of the App component, one field per useState hook.
The expandedRows object is modelled by its truthiness function: reading a
key absent from the JS object yields undefined, which is falsy. -/
structure ClientState where
  file : Option String
  rawText : String
  requirements : List Requirement
  activeTab : Int
  appLink : String
  prototypeLink : String
  diagramLinks : String
  imageLinks : String
  templateName : String
  templateFormat : String
  testCases : List TestCase
  jiraProject : String
  jiraIssueType : String
  status : String
  feedback : String
  reqFeedback : String
  expandedRows : String → Bool
  isGenerating : Bool
  isParsing : Bool
  isExporting : Bool
  exportFormat : String

/-- The initial state of the component, one initial value per useState call. -/
def initialState : ClientState :=
  { file := none
    rawText := ""
    requirements := []
    activeTab := 0
    appLink := ""
    prototypeLink := ""
    diagramLinks := ""
    imageLinks := ""
    templateName := "default"
    templateFormat := "table"
    testCases := []
    jiraProject := ""
    jiraIssueType := "Test"
    status := ""
    feedback := ""
    reqFeedback := ""
    expandedRows := fun _ => false
    isGenerating := false
    isParsing := false
    isExporting := false
    exportFormat := "csv" }

/-- toggleRowExpansion: spread the previous object and flip the entry for id.
Reading an absent key gives undefined (falsy), so the flipped value of a
fresh id is true. -/
def toggleRowExpansion (s : ClientState) (id : String) : ClientState :=
  { s with expandedRows := fun k => if k = id then !(s.expandedRows id) else s.expandedRows k }

/-! ## Tabs and navigation -/

/-- One entry of the tabs array. -/
structure Tab where
  id : Int
  label : String
  title : String
deriving DecidableEq, Repr

/-- The tabs array of App.jsx. -/
def tabs : List Tab :=
  [ ⟨0, "Upload", "Upload Requirements"⟩
  , ⟨1, "Context", "Context Inputs"⟩
  , ⟨2, "Template", "Template Setup"⟩
  , ⟨3, "Generate", "Generate Test Cases"⟩
  , ⟨4, "Export", "Export Test Cases"⟩
  , ⟨5, "Automation", "Playwright POM"⟩ ]

/-- goNext: advance the active tab, clamped to the last tab index. -/
def goNext (prev : Int) : Int := min (prev + 1) ((tabs.length : Int) - 1)

/-- goPrev: move the active tab back, clamped to zero. -/
def goPrev (prev : Int) : Int := max (prev - 1) 0

/-- A navigation action on the active tab: the Next button, the Back
button, or a direct click on one of the six tab buttons. -/
inductive NavOp where
  | next
  | prev
  | click (k : Fin 6)
deriving DecidableEq, Repr

/-- Apply one navigation action to the active tab index; a tab click sets
the index to the id of the clicked tab. -/
def applyNav (t : Int) : NavOp → Int
  | NavOp.next => goNext t
  | NavOp.prev => goPrev t
  | NavOp.click k => (tabs.get k).id

/-! ## Fetch outcomes

Each handler awaits one fetch. Its outcome is an input of the model:
either the response parsed as JSON (with res.ok true or false where the
handler inspects it), or a thrown error (network failure or a body that
is not JSON). -/

/-- Outcome of a fetch whose handler checks res.ok and reads the error
text of a non-OK response (parseRequirements). -/
inductive FetchOutcome (α : Type) where
  | ok (body : α)
  | httpError (errorText : String)
  | thrown (msg : String)
deriving DecidableEq, Repr

/-- Outcome of a fetch whose handler never checks res.ok and goes
straight to res.json (generateTestCases, exportToJira): the body parses,
or fetch or json throws. -/
inductive JsonOutcome (α : Type) where
  | ok (body : α)
  | thrown (msg : String)
deriving DecidableEq, Repr

/-- Result of running a handler: it returns normally with the new client
state, or an exception escapes it (the handler has no catch) leaving the
state as mutated so far. -/
inductive JsOutcome (σ : Type) where
  | value (s : σ)
  | exn (msg : String) (s : σ)

/-! ## parseRequirements -/

/-- JSON body of a successful /requirements/parse response. -/
structure ParseResponse where
  raw_text : Option String
  requirements : Option (List Requirement)
deriving DecidableEq, Repr

/-- The multipart form data sent to /requirements/parse. -/
structure ParseRequest where
  url : String
  file : Option String
  feedback : Option String
  existing_requirements : Option (List Requirement)
deriving DecidableEq, Repr

/-- The form data built by parseRequirements: the file when present, and
the feedback plus the serialized existing requirements when refining with
truthy (non-empty) feedback text. -/
def parseFormData (withFeedback : Bool) (s : ClientState) : ParseRequest :=
  { url := "/requirements/parse"
    file := s.file
    feedback :=
      if withFeedback && strTruthy s.reqFeedback then some s.reqFeedback else none
    existing_requirements :=
      if withFeedback && strTruthy s.reqFeedback then some s.requirements else none }

/-- parseRequirements(withFeedback) as a state transformer. The guard
returns before any effect when no file is selected and withFeedback is
false. Otherwise one request is issued; on an OK response the raw text
and requirements are installed and the feedback box cleared (refine
case); on a non-OK response or a thrown error the catch block records a
Parse failed status; finally clears isParsing. -/
def parseRequirements (withFeedback : Bool) (res : FetchOutcome ParseResponse)
    (s : ClientState) : ClientState × Option ParseRequest :=
  if s.file.isNone && !withFeedback then
    (s, none)
  else
    let req := parseFormData withFeedback s
    match res with
    | FetchOutcome.ok data =>
        ({ s with
            rawText := jsOrStr data.raw_text s.rawText
            requirements := data.requirements.getD []
            status := if withFeedback then "Requirements refined." else "Parsed."
            reqFeedback := if withFeedback then "" else s.reqFeedback
            isParsing := false },
         some req)
    | FetchOutcome.httpError errorText =>
        ({ s with
            status := "Parse failed: " ++
              (if errorText = "" then "Failed to parse requirements" else errorText)
            isParsing := false },
         some req)
    | FetchOutcome.thrown msg =>
        ({ s with
            status := "Parse failed: " ++ msg
            isParsing := false },
         some req)

/-! ## generateTestCases -/

/-- The template object of the generate payload. -/
structure GenTemplate where
  name : String
  format : String
  fields : List String
deriving DecidableEq, Repr

/-- The context object of the generate payload. -/
structure GenContext where
  requirements : List Requirement
  app_link : Option String
  prototype_link : Option String
  diagram_links : Option (List String)
  image_links : Option (List String)
  notes : String
deriving DecidableEq, Repr

/-- The JSON body sent to /testcases/generate. -/
structure GenRequest where
  url : String
  requirements : List Requirement
  template : GenTemplate
  context : GenContext
  feedback : Option String
deriving DecidableEq, Repr

/-- JSON body of a /testcases/generate response as read by the handler. -/
structure GenResponse where
  test_cases : Option (List TestCase)
deriving DecidableEq, Repr

/-- Split a semicolon-separated links field and trim each part; an empty
(falsy) field becomes null. -/
def splitLinks (s : String) : Option (List String) :=
  if strTruthy s then some ((s.splitOn ";").map jsTrim) else none

/-- The payload object built by generateTestCases: the full requirements
list, the template, a context that again carries the full requirements
list plus the link fields, and the feedback only when refining with
truthy feedback text. -/
def genPayload (withFeedback : Bool) (s : ClientState) : GenRequest :=
  { url := "/testcases/generate"
    requirements := s.requirements
    template :=
      { name := s.templateName
        format := s.templateFormat
        fields := ["id", "title", "description", "priority", "type", "status",
          "preconditions", "steps", "expected_result", "test_data",
          "estimated_time", "automation_status", "component", "tags"] }
    context :=
      { requirements := s.requirements
        app_link := if strTruthy s.appLink then some s.appLink else none
        prototype_link := if strTruthy s.prototypeLink then some s.prototypeLink else none
        diagram_links := splitLinks s.diagramLinks
        image_links := splitLinks s.imageLinks
        notes := "Generated via UI" }
    feedback := if withFeedback && strTruthy s.feedback then some s.feedback else none }

/-- generateTestCases(withFeedback) as a state transformer. The handler
sets a progress status, issues the request, and with no res.ok check
installs data.test_cases (or an empty list) from whatever JSON came back;
its try has no catch, so a thrown fetch or json error escapes after the
finally clears isGenerating, leaving the progress status in place. -/
def generateTestCases (withFeedback : Bool) (res : JsonOutcome GenResponse)
    (s : ClientState) : JsOutcome ClientState × Option GenRequest :=
  let progress :=
    if withFeedback then "Refining test cases with feedback..."
    else "Generating test cases..."
  let payload := genPayload withFeedback s
  match res with
  | JsonOutcome.ok data =>
      (JsOutcome.value { s with
          testCases := data.test_cases.getD []
          status := if withFeedback then "Test cases refined." else "Generated."
          feedback := if withFeedback then "" else s.feedback
          isGenerating := false },
       some payload)
  | JsonOutcome.thrown msg =>
      (JsOutcome.exn msg { s with
          status := progress
          isGenerating := false },
       some payload)

/-! ## exportToJira -/

/-- The JSON body sent to /export/jira. -/
structure JiraRequest where
  url : String
  project_key : String
  issue_type : String
  test_cases : List TestCase
deriving DecidableEq, Repr

/-- JSON body of an /export/jira response as read by the handler. -/
structure JiraResponse where
  status : String
  message : String
deriving DecidableEq, Repr

/-- The payload built by exportToJira. -/
def jiraPayload (s : ClientState) : JiraRequest :=
  { url := "/export/jira"
    project_key := s.jiraProject
    issue_type := s.jiraIssueType
    test_cases := s.testCases }

/-- Modelled from the spec: the backend /export/jira endpoint
(app/agents/export_agent.py, absent from the given sources) is a stub
that always returns a structured not-configured status and message
instead of throwing. -/
def jiraExportBackend (_r : JiraRequest) : JiraResponse :=
  { status := "not_configured"
    message := "JIRA integration requires API credentials to be configured in the backend." }

/-- exportToJira as a state transformer. On a response whose body parses
as JSON the handler surfaces status-colon-message in the status line; its
try has no catch, so a thrown fetch or json error escapes after the
finally clears isExporting, leaving the progress status in place. -/
def exportToJira (res : JsonOutcome JiraResponse) (s : ClientState) :
    JsOutcome ClientState × Option JiraRequest :=
  match res with
  | JsonOutcome.ok data =>
      (JsOutcome.value { s with
          status := data.status ++ ": " ++ data.message
          isExporting := false },
       some (jiraPayload s))
  | JsonOutcome.thrown msg =>
      (JsOutcome.exn msg { s with
          status := "Exporting to JIRA..."
          isExporting := false },
       some (jiraPayload s))

/-! ## exportToFormat -/

/-- The JSON body sent to /export/(format). -/
structure ExportRequest where
  url : String
  test_cases : List TestCase
deriving DecidableEq, Repr

/-- A triggered browser download: the anchor download attribute (file
name) and the blob content. -/
structure Download where
  fileName : String
  content : String
deriving DecidableEq, Repr

/-- Outcome of the export fetch: an OK response with a binary blob, a
non-OK response, or a thrown network error. -/
inductive ExportOutcome where
  | ok (blob : String)
  | httpError
  | thrown (msg : String)
deriving DecidableEq, Repr

/-- The extensions lookup object of exportToFormat: csv to csv, excel to
xlsx, json to json, anything else undefined. -/
def extensions (format : String) : Option String :=
  if format = "csv" then some "csv"
  else if format = "excel" then some "xlsx"
  else if format = "json" then some "json"
  else none

/-- exportToFormat(format) as a state transformer that also reports the
issued request and the triggered download. On an OK response the blob is
downloaded as test_cases.(ext) where ext is the extensions lookup with
the raw format as fallback; a non-OK response or thrown error is caught
and an Export failed status recorded; finally clears isExporting. -/
def exportToFormat (format : String) (res : ExportOutcome) (s : ClientState) :
    ClientState × Option ExportRequest × Option Download :=
  let req : ExportRequest := { url := "/export/" ++ format, test_cases := s.testCases }
  match res with
  | ExportOutcome.ok blob =>
      ({ s with
          status := "✓ Exported to " ++ format.toUpper ++ " successfully"
          isExporting := false },
       some req,
       some { fileName := "test_cases." ++ (extensions format).getD format
              content := blob })
  | ExportOutcome.httpError =>
      ({ s with
          status := "Export failed: Export failed"
          isExporting := false },
       some req, none)
  | ExportOutcome.thrown msg =>
      ({ s with
          status := "Export failed: " ++ msg
          isExporting := false },
       some req, none)

/-! ## Feedback buttons

The two Implement Changes buttons carry a disabled attribute; a disabled
button ignores clicks, so a click is a complete no-op unless the
trimmed feedback text is non-empty and no call is in flight. -/

/-- Clicking the requirements-feedback Implement Changes button: disabled
while reqFeedback.trim() is falsy or isParsing, otherwise it runs
parseRequirements(true). -/
def clickReqRefine (res : FetchOutcome ParseResponse) (s : ClientState) :
    ClientState × Option ParseRequest :=
  if !(strTruthy (jsTrim s.reqFeedback)) || s.isParsing then (s, none)
  else parseRequirements true res s

/-- Clicking the test-case-feedback Implement Changes button: disabled
while feedback.trim() is falsy or isGenerating, otherwise it runs
generateTestCases(true). -/
def clickTestCaseRefine (res : JsonOutcome GenResponse) (s : ClientState) :
    JsOutcome ClientState × Option GenRequest :=
  if !(strTruthy (jsTrim s.feedback)) || s.isGenerating then (JsOutcome.value s, none)
  else generateTestCases true res s

/-! ## Table view rendering -/

/-- The cells of one row of the test-cases table that involve defaulting,
as rendered by the table branch of the Generate tab. -/
structure TableRow where
  idCell : String
  titleCell : String
  priorityBadge : String
  typeCell : String
  statusBadge : String
  preconditionsCell : String
  expectedResultCell : String
  testDataCell : String
  timeCell : String
  automationBadge : String
  componentCell : String
deriving DecidableEq, Repr

/-- Render one test case as a table row: each or-default expression of
the JSX becomes a jsOrStr application. -/
def renderTableRow (tc : TestCase) : TableRow :=
  { idCell := tc.id
    titleCell := tc.title
    priorityBadge := jsOrStr tc.priority "Medium"
    typeCell := jsOrStr tc.type "Functional"
    statusBadge := jsOrStr tc.status "Draft"
    preconditionsCell := jsOrStr tc.preconditions "-"
    expectedResultCell := jsOrStr tc.expected_result "-"
    testDataCell := jsOrStr tc.test_data "-"
    timeCell := jsOrStr tc.estimated_time "-"
    automationBadge := jsOrStr tc.automation_status "Manual"
    componentCell := jsOrStr tc.component "-" }

/-! ## Validation Gate (modelled from the spec) -/

/-- Verdict of a Validator step: approval, or a structured list of
deficiencies. Modelled from the spec: the Validator lives in the backend
test-case agent, which is absent from the given sources. -/
inductive Verdict where
  | approved
  | deficiencies (ds : List String)
deriving DecidableEq, Repr

/-- Terminal tag of the Validation Gate. -/
inductive GateTag where
  | approved
  | maxIterationsExceeded
deriving DecidableEq, Repr

/-- Result of the Validation Gate: the surfaced artifact, its tag, and
the number of regeneration cycles performed. -/
structure GateResult where
  artifact : List TestCase
  tag : GateTag
  cycles : Nat
deriving DecidableEq, Repr

/-- Modelled from the spec: the Validating-Regenerating loop of the
Validation Gate (backend test-case agent, absent from the given sources).
The current artifact is validated; on approval it is surfaced tagged
Approved; on deficiencies, while regeneration budget remains, a Refiner
step regenerates it and control returns to Validating; with the budget
exhausted the most recent artifact is surfaced tagged
MaxIterationsExceeded rather than blocking. -/
def runGate (critique : List TestCase → Verdict)
    (revise : List TestCase → List String → List TestCase)
    (a : List TestCase) : Nat → GateResult
  | 0 =>
      match critique a with
      | Verdict.approved => { artifact := a, tag := GateTag.approved, cycles := 0 }
      | Verdict.deficiencies _ =>
          { artifact := a, tag := GateTag.maxIterationsExceeded, cycles := 0 }
  | budget + 1 =>
      match critique a with
      | Verdict.approved => { artifact := a, tag := GateTag.approved, cycles := 0 }
      | Verdict.deficiencies ds =>
          let r := runGate critique revise (revise a ds) budget
          { r with cycles := r.cycles + 1 }

/-- Modelled from the spec: the Validation Gate wraps an initial
generation in the validation loop with at most iteration_cap
regeneration cycles. -/
def validationGate (produced : List TestCase)
    (critique : List TestCase → Verdict)
    (revise : List TestCase → List String → List TestCase)
    (iteration_cap : Nat) : GateResult :=
  runGate critique revise produced iteration_cap

/-! ## Concrete fixtures for witnesses -/

/-- A concrete requirement. -/
def reqAuth : Requirement :=
  { id := "REQ-1", text := "The system shall allow users to sign in." }

/-- A concrete test case with all fields populated. -/
def tcLogin : TestCase :=
  { id := "TC-001"
    title := "Valid login"
    description := some "Sign in with valid credentials"
    priority := some "High"
    type := some "Functional"
    status := some "Draft"
    preconditions := some "User account exists"
    steps := [{ step := 1, action := "Open login page", expected := "Page loads", test_data := none }]
    expected_result := some "User is signed in"
    test_data := none
    estimated_time := some "5m"
    automation_status := some "Manual"
    component := some "Auth"
    tags := ["auth"] }

/-- A concrete test case with every optional field absent. -/
def tcBare : TestCase :=
  { id := "TC-002"
    title := "Bare case"
    description := none
    priority := none
    type := none
    status := none
    preconditions := none
    steps := []
    expected_result := none
    test_data := none
    estimated_time := none
    automation_status := none
    component := none
    tags := [] }

/-- A client state mid-session: one parsed requirement, one generated
test case, non-blank feedback in both feedback boxes. -/
def sampleState : ClientState :=
  { initialState with
      file := some "requirements.md"
      rawText := "raw"
      requirements := [reqAuth]
      testCases := [tcLogin]
      feedback := "Add negative cases"
      reqFeedback := "Merge REQ-1" }

/-- A client state whose two feedback boxes hold only whitespace. -/
def blankFeedbackState : ClientState :=
  { sampleState with
      feedback := "  "
      reqFeedback := " \t " }

/-! ## Helper lemmas -/

/-- Dropping while a predicate holds of every element yields the empty list. -/
theorem dropWhile_eq_nil_of_all {l : List Char} (h : ∀ c ∈ l, isJsSpace c) :
    l.dropWhile isJsSpace = [] := by
  induction l with
  | nil => rfl
  | cons a t ih =>
      simp only [List.dropWhile]
      rw [h a (by simp)]
      exact ih fun c hc => h c (by simp [hc])

/-- A string of JS whitespace trims to the empty string. -/
theorem jsTrim_eq_empty_of_whitespace {s : String} (h : ∀ c ∈ s.data, isJsSpace c) :
    jsTrim s = "" := by
  unfold jsTrim jsTrimList
  rw [dropWhile_eq_nil_of_all h]
  rfl

/-- The gate never performs more regeneration cycles than its budget. -/
theorem runGate_cycles_le (critique : List TestCase → Verdict)
    (revise : List TestCase → List String → List TestCase) :
    ∀ (cap : Nat) (a : List TestCase), (runGate critique revise a cap).cycles ≤ cap := by
  intro cap
  induction cap with
  | zero =>
      intro a
      cases h : critique a <;> simp [runGate, h]
  | succ n ih =>
      intro a
      cases h : critique a with
      | approved => simp [runGate, h]
      | deficiencies ds =>
          simp only [runGate, h]
          exact Nat.succ_le_succ (ih (revise a ds))

/-- Against a validator that always reports deficiencies, the gate uses
its whole budget and ends tagged MaxIterationsExceeded. -/
theorem runGate_always_deficient
    (revise : List TestCase → List String → List TestCase) (d : List String) :
    ∀ (cap : Nat) (a : List TestCase),
      (runGate (fun _ => Verdict.deficiencies d) revise a cap).cycles = cap ∧
      (runGate (fun _ => Verdict.deficiencies d) revise a cap).tag
        = GateTag.maxIterationsExceeded := by
  intro cap
  induction cap with
  | zero => intro a; exact ⟨rfl, rfl⟩
  | succ n ih =>
      intro a
      have h := ih (revise a d)
      simp only [runGate]
      exact ⟨by rw [h.1], h.2⟩

/-- Each navigation action keeps an in-range tab index in range. -/
theorem applyNav_preserves_range (t : Int) (op : NavOp) (h0 : 0 ≤ t) (h5 : t ≤ 5) :
    0 ≤ applyNav t op ∧ applyNav t op ≤ 5 := by
  cases op with
  | next =>
      have h : applyNav t NavOp.next = min (t + 1) 5 := rfl
      rw [h]
      omega
  | prev =>
      have h : applyNav t NavOp.prev = max (t - 1) 0 := rfl
      rw [h]
      omega
  | click k =>
      have h : ∀ j : Fin 6, 0 ≤ (tabs.get j).id ∧ (tabs.get j).id ≤ 5 := by decide
      exact h k

/-- Folding navigation actions from an in-range index stays in range. -/
theorem foldl_nav_in_range (ops : List NavOp) :
    ∀ t : Int, 0 ≤ t → t ≤ 5 →
      0 ≤ ops.foldl applyNav t ∧ ops.foldl applyNav t ≤ 5 := by
  induction ops with
  | nil => intro t h0 h5; exact ⟨h0, h5⟩
  | cons op rest ih =>
      intro t h0 h5
      have h := applyNav_preserves_range t op h0 h5
      exact ih (applyNav t op) h.1 h.2

/-! ## Claim theorems -/

/-- C1: evaluation at the failing input. The claim says a failed Generate
or Refine call yields a typed error and leaves the artifact unchanged.
On a response whose JSON body carries no test_cases field (for example an
HTTP 500 error body), generateTestCases replaces the non-empty test-case
list with the empty list and reports the success status Generated; and on
a thrown fetch error the exception escapes the handler with only the
progress status in place, no typed error surfaced. -/
theorem generate_failure_silently_installs_empty_list :
    (generateTestCases false (JsonOutcome.ok { test_cases := none }) sampleState).1
      = JsOutcome.value { sampleState with
          testCases := []
          status := "Generated."
          isGenerating := false }
    ∧ sampleState.testCases ≠ []
    ∧ (generateTestCases false (JsonOutcome.thrown "TypeError: Failed to fetch") sampleState).1
      = JsOutcome.exn "TypeError: Failed to fetch" { sampleState with
          status := "Generating test cases..."
          isGenerating := false } :=
  ⟨rfl, by decide, rfl⟩

/-- C2: a Refine request with empty or whitespace-only feedback is
rejected: both Implement Changes buttons are disabled, so the click is a
complete no-op — no request is issued and the client state is unchanged,
for requirements refinement and test-case refinement alike. -/
theorem refine_rejected_on_blank_feedback (s : ClientState)
    (r1 : FetchOutcome ParseResponse) (r2 : JsonOutcome GenResponse)
    (h1 : ∀ c ∈ s.reqFeedback.data, isJsSpace c)
    (h2 : ∀ c ∈ s.feedback.data, isJsSpace c) :
    clickReqRefine r1 s = (s, none) ∧
    clickTestCaseRefine r2 s = (JsOutcome.value s, none) := by
  constructor
  · unfold clickReqRefine
    rw [jsTrim_eq_empty_of_whitespace h1]
    simp [strTruthy]
  · unfold clickTestCaseRefine
    rw [jsTrim_eq_empty_of_whitespace h2]
    simp [strTruthy]

/-- C2 witness: at a concrete state whose feedback boxes hold only
whitespace, both refine clicks are no-ops. -/
theorem refine_rejected_on_blank_feedback_witness :
    clickReqRefine (FetchOutcome.thrown "network down") blankFeedbackState
      = (blankFeedbackState, none) ∧
    clickTestCaseRefine (JsonOutcome.ok { test_cases := none }) blankFeedbackState
      = (JsOutcome.value blankFeedbackState, none) :=
  refine_rejected_on_blank_feedback blankFeedbackState
    (FetchOutcome.thrown "network down") (JsonOutcome.ok { test_cases := none })
    (by decide) (by decide)

/-- C3: the Validation Gate never performs more than iteration_cap
regeneration cycles, and with a validator that always reports
deficiencies it terminates after exactly iteration_cap cycles returning
the best artifact so far tagged MaxIterationsExceeded. -/
theorem gate_capped_and_exact_on_always_deficient
    (produced : List TestCase)
    (critique : List TestCase → Verdict)
    (revise : List TestCase → List String → List TestCase)
    (d : List String) (iteration_cap : Nat) :
    (validationGate produced critique revise iteration_cap).cycles ≤ iteration_cap ∧
    (validationGate produced (fun _ => Verdict.deficiencies d) revise iteration_cap).cycles
      = iteration_cap ∧
    (validationGate produced (fun _ => Verdict.deficiencies d) revise iteration_cap).tag
      = GateTag.maxIterationsExceeded :=
  ⟨runGate_cycles_le critique revise iteration_cap produced,
   (runGate_always_deficient revise d iteration_cap produced).1,
   (runGate_always_deficient revise d iteration_cap produced).2⟩

/-- C4: every refine round carries the entire current artifact. A
requirements refine request with truthy feedback carries the full
existing requirements list serialized alongside the feedback; a test-case
refine request always carries the full requirements list and a context
that again contains the full requirements list. -/
theorem refine_carries_full_artifact (s : ClientState)
    (r1 : FetchOutcome ParseResponse) (r2 : JsonOutcome GenResponse)
    (h : strTruthy s.reqFeedback = true) :
    (parseRequirements true r1 s).2
      = some { url := "/requirements/parse"
               file := s.file
               feedback := some s.reqFeedback
               existing_requirements := some s.requirements } ∧
    (generateTestCases true r2 s).2 = some (genPayload true s) ∧
    (genPayload true s).requirements = s.requirements ∧
    (genPayload true s).context.requirements = s.requirements := by
  refine ⟨?_, ?_, rfl, rfl⟩
  · unfold parseRequirements parseFormData
    cases r1 <;> simp [h]
  · unfold generateTestCases
    cases r2 <;> rfl

/-- C4 witness: at a concrete mid-session state with non-empty refine
feedback, both refine requests carry the full artifact. -/
theorem refine_carries_full_artifact_witness :
    (parseRequirements true (FetchOutcome.ok { raw_text := none, requirements := none })
        sampleState).2
      = some { url := "/requirements/parse"
               file := some "requirements.md"
               feedback := some "Merge REQ-1"
               existing_requirements := some [reqAuth] } ∧
    (generateTestCases true (JsonOutcome.ok { test_cases := none }) sampleState).2
      = some (genPayload true sampleState) ∧
    (genPayload true sampleState).requirements = sampleState.requirements ∧
    (genPayload true sampleState).context.requirements = sampleState.requirements :=
  refine_carries_full_artifact sampleState
    (FetchOutcome.ok { raw_text := none, requirements := none })
    (JsonOutcome.ok { test_cases := none }) (by decide)

/-- C5: for each supported format, the export issues a POST to
/export/(format) with the test cases as body and, on an OK response,
delivers the blob as a download named with the matching extension: csv
to .csv, excel to .xlsx, json to .json. -/
theorem export_format_request_and_download (s : ClientState) (blob : String) :
    (exportToFormat "csv" (ExportOutcome.ok blob) s).2
      = (some { url := "/export/csv", test_cases := s.testCases },
         some { fileName := "test_cases.csv", content := blob }) ∧
    (exportToFormat "excel" (ExportOutcome.ok blob) s).2
      = (some { url := "/export/excel", test_cases := s.testCases },
         some { fileName := "test_cases.xlsx", content := blob }) ∧
    (exportToFormat "json" (ExportOutcome.ok blob) s).2
      = (some { url := "/export/json", test_cases := s.testCases },
         some { fileName := "test_cases.json", content := blob }) :=
  ⟨rfl, rfl, rfl⟩

/-- C6 counterexample: the JIRA export does not always yield a surfaced
structured result — when the fetch itself fails, the exception escapes
the handler (it has no catch) and only the progress status is left in
the status line. -/
theorem jira_network_failure_propagates :
    (exportToJira (JsonOutcome.thrown "TypeError: Failed to fetch") sampleState).1
      = JsOutcome.exn "TypeError: Failed to fetch"
          { sampleState with status := "Exporting to JIRA...", isExporting := false } :=
  rfl

/-- C6 amended: whenever the JIRA export HTTP call completes with a JSON
body, the operation returns normally and surfaces the structured status
and message in the status line; with the stub backend the surfaced status
is the structured not-configured result. -/
theorem jira_completed_call_surfaces_structured_status
    (s : ClientState) (d : JiraResponse) :
    (exportToJira (JsonOutcome.ok d) s).1
      = JsOutcome.value { s with
          status := d.status ++ ": " ++ d.message
          isExporting := false } ∧
    (exportToJira (JsonOutcome.ok d) s).2 = some (jiraPayload s) ∧
    (jiraExportBackend (jiraPayload s)).status = "not_configured" :=
  ⟨rfl, rfl, rfl⟩

/-- C7: in the table view, a test case whose priority, type, status or
automation_status is absent is rendered with the defaults Medium,
Functional, Draft and Manual respectively. -/
theorem table_defaults_for_absent_fields (tc : TestCase) :
    (tc.priority = none → (renderTableRow tc).priorityBadge = "Medium") ∧
    (tc.type = none → (renderTableRow tc).typeCell = "Functional") ∧
    (tc.status = none → (renderTableRow tc).statusBadge = "Draft") ∧
    (tc.automation_status = none → (renderTableRow tc).automationBadge = "Manual") := by
  refine ⟨fun h => ?_, fun h => ?_, fun h => ?_, fun h => ?_⟩ <;>
    simp [renderTableRow, jsOrStr, h]

/-- C7 witness: the test case with every optional field absent renders
with all four defaults. -/
theorem table_defaults_for_absent_fields_witness :
    (renderTableRow tcBare).priorityBadge = "Medium" ∧
    (renderTableRow tcBare).typeCell = "Functional" ∧
    (renderTableRow tcBare).statusBadge = "Draft" ∧
    (renderTableRow tcBare).automationBadge = "Manual" := by
  have h := table_defaults_for_absent_fields tcBare
  exact ⟨h.1 rfl, h.2.1 rfl, h.2.2.1 rfl, h.2.2.2 rfl⟩

/-- C8: from the initial tab index 0, any sequence of Next, Back and
direct tab clicks keeps the active tab index between 0 and 5 inclusive;
Next on the last tab and Back on the first leave it unchanged. -/
theorem active_tab_stays_in_range :
    (∀ ops : List NavOp,
      0 ≤ ops.foldl applyNav 0 ∧ ops.foldl applyNav 0 ≤ 5) ∧
    goNext 5 = 5 ∧ goPrev 0 = 0 :=
  ⟨fun ops => foldl_nav_in_range ops 0 (by decide) (by decide),
   by decide, by decide⟩

/-- C9: toggling the expansion of a row twice restores the expansion
state of that id to its original boolean value (in fact the whole map),
and a single toggle changes no entry other than the one for that id. -/
theorem toggle_row_involutive_and_frame (s : ClientState) (id k : String) :
    (toggleRowExpansion (toggleRowExpansion s id) id).expandedRows k
      = s.expandedRows k ∧
    (k ≠ id → (toggleRowExpansion s id).expandedRows k = s.expandedRows k) := by
  constructor
  · by_cases h : k = id <;> simp [toggleRowExpansion, h]
  · intro h
    simp [toggleRowExpansion, h]

/-- C9 witness: at a concrete state, double-toggling TC-001 restores its
expansion state and a single toggle of TC-001 leaves TC-002 untouched. -/
theorem toggle_row_involutive_and_frame_witness :
    (toggleRowExpansion (toggleRowExpansion sampleState "TC-001") "TC-001").expandedRows "TC-001"
      = sampleState.expandedRows "TC-001" ∧
    (toggleRowExpansion sampleState "TC-001").expandedRows "TC-002"
      = sampleState.expandedRows "TC-002" :=
  ⟨(toggle_row_involutive_and_frame sampleState "TC-001" "TC-001").1,
   (toggle_row_involutive_and_frame sampleState "TC-001" "TC-002").2 (by decide)⟩

/-- C10: an initial parse request while no file is selected is a complete
no-op — the guard returns before any effect, so no request is issued and
the whole client state is unchanged. -/
theorem parse_noop_without_file (s : ClientState) (res : FetchOutcome ParseResponse)
    (h : s.file = none) :
    parseRequirements false res s = (s, none) := by
  unfold parseRequirements
  simp [h]

/-- C10 witness: on the initial state, which has no selected file, the
initial parse is a no-op. -/
theorem parse_noop_without_file_witness :
    parseRequirements false (FetchOutcome.ok { raw_text := none, requirements := none })
      initialState = (initialState, none) :=
  parse_noop_without_file initialState
    (FetchOutcome.ok { raw_text := none, requirements := none }) rfl

end AgenticTCG
